import Mathlib

/-!
Formal model of `src/main/im/feishuMedia.ts` (Feishu media upload utilities).

The TypeScript module exposes two effectful upload wrappers
(`uploadImageToFeishu`, `uploadFileToFeishu`) and four pure helpers
(`detectFeishuFileType`, `isFeishuImagePath`, `isFeishuAudioPath`,
`resolveFeishuMediaPath`).

Shallow-embedding conventions used below:

* A byte source (`Buffer | string` in TS) is the tagged union `ByteSource`.
* The outside world observed by one upload call is an `UploadEnv`:
  the outcome of `fs.statSync(path).size`, of stream construction
  (`fs.createReadStream` / `Readable.from`), and of the single SDK call
  (`client.im.image.create` / `client.im.file.create`).  A thrown JS
  exception is modelled as `Except.error m` where `m` is the exception's
  `.message` string.
* Each upload function returns its TS result record together with an
  `UploadTrace` recording which external effects the function performed:
  whether a readable stream was constructed, whether the function itself
  closed/destroyed that stream (the TS source contains no `close`/`destroy`
  call on any path, so this is `false` on every path), and the request
  payload submitted to the remote endpoint (`none` when the endpoint was
  never invoked).
* JS string truthiness (`!s`, `s || d`) and nullish coalescing (`??`) are
  modelled explicitly by `jsTruthyStr`, `jsOrElseStr`, `jsNullish`.
* `(size / 1024 / 1024).toFixed(1)` is modelled by `mibToFixed1`.  Both
  divisions by 1024 are exact in binary floating point for any byte count
  below 2^53, and `toFixed(1)` rounds to the nearest multiple of 1/10,
  ties away from zero, so the exact rational rounding below reproduces the
  JS output for every realistic size.
* The Node builtins `path.extname` (posix), `String.prototype.toLowerCase`
  (ASCII range, the only one relevant to extensions), `decodeURIComponent`
  and `String.prototype.startsWith` are modelled by `extname`,
  `toLowerModel`, `decodeURIComponentModel` and `jsStartsWith`.
-/

/-- TS `type FeishuFileType = 'opus' | 'mp4' | 'pdf' | 'doc' | 'xls' | 'ppt' | 'stream'`. -/
inductive FeishuFileType where
  | opus
  | mp4
  | pdf
  | doc
  | xls
  | ppt
  | stream
deriving DecidableEq, Repr

/-- TS `imageType: 'message' | 'avatar'`. -/
inductive FeishuImageType where
  | message
  | avatar
deriving DecidableEq, Repr

/-- A byte source: TS `Buffer | string` (in-memory bytes, or a file path). -/
inductive ByteSource where
  | buffer (bytes : List UInt8)
  | filePath (p : String)
deriving DecidableEq, Repr

/-- The object possibly nested under the response's `data` field. -/
structure FeishuData where
  image_key : Option String
  file_key : Option String
deriving DecidableEq, Repr

/-- The remote endpoint's response as read by the TS code:
`{code?, msg?, image_key?, file_key?, data?}`.  `none` models an absent
(JS `undefined`) field. -/
structure FeishuResponse where
  code : Option Int
  msg : Option String
  image_key : Option String
  file_key : Option String
  data : Option FeishuData
deriving DecidableEq, Repr

/-- TS `FeishuImageUploadResult`. -/
structure FeishuImageUploadResult where
  success : Bool
  imageKey : Option String
  error : Option String
deriving DecidableEq, Repr

/-- TS `FeishuFileUploadResult`. -/
structure FeishuFileUploadResult where
  success : Bool
  fileKey : Option String
  error : Option String
deriving DecidableEq, Repr

/-- Payload of `client.im.image.create` (the stream's bytes are the source's
bytes and carry no further information). -/
structure FeishuImageRequest where
  image_type : FeishuImageType
deriving DecidableEq, Repr

/-- Payload of `client.im.file.create`; `duration` is `some d` exactly when
the TS spread `...(duration !== undefined && { duration })` adds the field. -/
structure FeishuFileRequest where
  file_type : FeishuFileType
  file_name : String
  duration : Option Nat
deriving DecidableEq, Repr

/-- Outcomes of the external effects a single upload call can perform.
`Except.error m` models a thrown exception whose `.message` is `m`. -/
structure UploadEnv where
  statSize : String → Except String Nat
  createStream : Except String Unit
  imageCreate : Except String FeishuResponse
  fileCreate : Except String FeishuResponse

/-- Instrumentation of one upload call: which external effects happened.
`streamClosedByFunction` is `false` on every path because the TS source of
both upload functions contains no `close()`/`destroy()` call; any closing of
the stream (for instance by the SDK consuming it) happens outside the
function. `remoteRequest` is `some` exactly when the remote endpoint was
invoked. -/
structure UploadTrace (ρ : Type) where
  streamCreated : Bool
  streamClosedByFunction : Bool
  remoteRequest : Option ρ
deriving DecidableEq, Repr

/-- TS `const MAX_FILE_SIZE = 30 * 1024 * 1024`. -/
def MAX_FILE_SIZE : Nat := 30 * 1024 * 1024

/-- JS string truthiness: a string is falsy exactly when it is `""`;
an absent (`undefined`) value is falsy. -/
def jsTruthyStr : Option String → Bool
  | none => false
  | some s => !(s == "")

/-- JS `m || d` for a possibly-absent string `m`: `d` when `m` is absent or
empty, else `m`. -/
def jsOrElseStr (m : Option String) (d : String) : String :=
  match m with
  | some s => if s == "" then d else s
  | none => d

/-- JS `a ?? b`: `a` unless `a` is nullish (absent). An empty string is
not nullish, so `some "" ?? b = some ""`. -/
def jsNullish (a b : Option String) : Option String :=
  match a with
  | some s => some s
  | none => b

/-- Model of JS `(size / 1024 / 1024).toFixed(1)`: render `size / 2^20`
with one decimal digit, rounding to the nearest tenth with ties away from
zero (exact for the double arithmetic of the source, since dividing a
byte count below 2^53 by 1024 twice is exact). -/
def mibToFixed1 (size : Nat) : String :=
  let n := (size * 10 + 524288) / 1048576
  toString (n / 10) ++ "." ++ toString (n % 10)

/-- Lines 68-82 of the source: response normalization of
`uploadImageToFeishu` after the SDK call returned `response`. -/
def imageRespResult (response : FeishuResponse) : FeishuImageUploadResult :=
  match response.code with
  | some c =>
    if c ≠ 0 then
      ⟨false, none, some ("Feishu error: " ++ jsOrElseStr response.msg ("code " ++ toString c))⟩
    else
      let imageKey := jsNullish response.image_key (response.data.bind FeishuData.image_key)
      if jsTruthyStr imageKey then ⟨true, imageKey, none⟩
      else ⟨false, none, some "No image_key returned"⟩
  | none =>
    let imageKey := jsNullish response.image_key (response.data.bind FeishuData.image_key)
    if jsTruthyStr imageKey then ⟨true, imageKey, none⟩
    else ⟨false, none, some "No image_key returned"⟩

/-- Lines 56-85 of the source: the part of `uploadImageToFeishu` after the
size check passed (stream construction, SDK call, response normalization,
and the surrounding `catch`). -/
def imagePhase2 (env : UploadEnv) (imageType : FeishuImageType) :
    FeishuImageUploadResult × UploadTrace FeishuImageRequest :=
  match env.createStream with
  | .error e => (⟨false, none, some e⟩, ⟨false, false, none⟩)
  | .ok _ =>
    match env.imageCreate with
    | .error e => (⟨false, none, some e⟩, ⟨true, false, some ⟨imageType⟩⟩)
    | .ok response => (imageRespResult response, ⟨true, false, some ⟨imageType⟩⟩)

/-- TS `uploadImageToFeishu(client, image, imageType)` (lines 34-86).
The `client` argument is represented by `env`; the TS default
`imageType = 'message'` is passed explicitly here. -/
def uploadImageToFeishu (env : UploadEnv) (image : ByteSource) (imageType : FeishuImageType) :
    FeishuImageUploadResult × UploadTrace FeishuImageRequest :=
  match image with
  | .filePath p =>
    match env.statSize p with
    | .error e => (⟨false, none, some e⟩, ⟨false, false, none⟩)
    | .ok size =>
      if size > MAX_FILE_SIZE then
        (⟨false, none, some ("Image too large: " ++ mibToFixed1 size ++ "MB (limit 30MB)")⟩,
         ⟨false, false, none⟩)
      else imagePhase2 env imageType
  | .buffer bytes =>
    if bytes.length > MAX_FILE_SIZE then
      (⟨false, none, some ("Image too large: " ++ mibToFixed1 bytes.length ++ "MB (limit 30MB)")⟩,
       ⟨false, false, none⟩)
    else imagePhase2 env imageType

/-- Lines 134-147 of the source: response normalization of
`uploadFileToFeishu` after the SDK call returned `response`. -/
def fileRespResult (response : FeishuResponse) : FeishuFileUploadResult :=
  match response.code with
  | some c =>
    if c ≠ 0 then
      ⟨false, none, some ("Feishu error: " ++ jsOrElseStr response.msg ("code " ++ toString c))⟩
    else
      let fileKey := jsNullish response.file_key (response.data.bind FeishuData.file_key)
      if jsTruthyStr fileKey then ⟨true, fileKey, none⟩
      else ⟨false, none, some "No file_key returned"⟩
  | none =>
    let fileKey := jsNullish response.file_key (response.data.bind FeishuData.file_key)
    if jsTruthyStr fileKey then ⟨true, fileKey, none⟩
    else ⟨false, none, some "No file_key returned"⟩

/-- Lines 120-150 of the source: the part of `uploadFileToFeishu` after the
size check passed. -/
def filePhase2 (env : UploadEnv) (fileName : String) (fileType : FeishuFileType)
    (duration : Option Nat) : FeishuFileUploadResult × UploadTrace FeishuFileRequest :=
  match env.createStream with
  | .error e => (⟨false, none, some e⟩, ⟨false, false, none⟩)
  | .ok _ =>
    match env.fileCreate with
    | .error e => (⟨false, none, some e⟩, ⟨true, false, some ⟨fileType, fileName, duration⟩⟩)
    | .ok response => (fileRespResult response, ⟨true, false, some ⟨fileType, fileName, duration⟩⟩)

/-- TS `uploadFileToFeishu(client, file, fileName, fileType, duration?)`
(lines 96-151). -/
def uploadFileToFeishu (env : UploadEnv) (file : ByteSource) (fileName : String)
    (fileType : FeishuFileType) (duration : Option Nat) :
    FeishuFileUploadResult × UploadTrace FeishuFileRequest :=
  match file with
  | .filePath p =>
    match env.statSize p with
    | .error e => (⟨false, none, some e⟩, ⟨false, false, none⟩)
    | .ok size =>
      if size > MAX_FILE_SIZE then
        (⟨false, none, some ("File too large: " ++ mibToFixed1 size ++ "MB (limit 30MB)")⟩,
         ⟨false, false, none⟩)
      else filePhase2 env fileName fileType duration
  | .buffer bytes =>
    if bytes.length > MAX_FILE_SIZE then
      (⟨false, none, some ("Buffer too large: " ++ mibToFixed1 bytes.length ++ "MB (limit 30MB)")⟩,
       ⟨false, false, none⟩)
    else filePhase2 env fileName fileType duration

/-- The size precondition of both upload functions holds for `src` under
`env`: the determined byte length is at most `MAX_FILE_SIZE`. -/
def sizeOk (env : UploadEnv) : ByteSource → Prop
  | .buffer bytes => bytes.length ≤ MAX_FILE_SIZE
  | .filePath p => ∃ n, env.statSize p = .ok n ∧ n ≤ MAX_FILE_SIZE

/-- Model of Node `path.posix.extname` (platform builtin): the extension of
the last nonempty path component, from its last `.` to the end; empty when
that component has no `.` after its first character (so dotfiles such as
`".opus"` have no extension), and empty for the component `".."`.  This is
the observable behavior of Node's scanning implementation (its
`preDotState` special cases are exactly the leading-dot and `".."` rules
above, including the skipping of trailing separators). -/
def dropTrailingSlashes (l : List Char) : List Char :=
  (l.reverse.dropWhile (fun c => c == '/')).reverse

/-- The last path component scanned by `path.extname`: what remains after
dropping trailing `/` separators and then everything up to the last `/`. -/
def afterLastSlash (l : List Char) : List Char :=
  (l.reverse.takeWhile (fun c => !(c == '/'))).reverse

/-- The characters of the path component whose extension `path.extname`
reports. -/
def basenameForExt (p : String) : List Char :=
  afterLastSlash (dropTrailingSlashes p.data)

/-- Index (counting from `i` for the head) of the last `.` in the list,
`none` when the list has no `.`. -/
def lastDotFrom (i : Nat) : List Char → Option Nat
  | [] => none
  | c :: cs =>
    match lastDotFrom (i + 1) cs with
    | some j => some j
    | none => if c = '.' then some i else none

/-- Model of Node `path.extname` (posix); see `dropTrailingSlashes`. -/
def extname (p : String) : String :=
  if basenameForExt p = ['.', '.'] then ""
  else
    match basenameForExt p with
    | [] => ""
    | c :: cs =>
      match lastDotFrom 1 cs with
      | none => ""
      | some i => ⟨(c :: cs).drop i⟩

/-- Model of JS `String.prototype.toLowerCase` on the ASCII range (the only
range that matters for the extension tables of the source). -/
def toLowerModel (s : String) : String :=
  ⟨s.data.map Char.toLower⟩

/-- The TS idiom `path.extname(x).toLowerCase()` shared by
`detectFeishuFileType`, `isFeishuImagePath` and `isFeishuAudioPath`. -/
def extLower (fileName : String) : String :=
  toLowerModel (extname fileName)

/-- The `switch (ext)` table of `detectFeishuFileType` (lines 158-179). -/
def feishuTypeOfExt (ext : String) : FeishuFileType :=
  if ext = ".opus" ∨ ext = ".ogg" then .opus
  else if ext = ".mp4" ∨ ext = ".mov" ∨ ext = ".avi" then .mp4
  else if ext = ".pdf" then .pdf
  else if ext = ".doc" ∨ ext = ".docx" then .doc
  else if ext = ".xls" ∨ ext = ".xlsx" then .xls
  else if ext = ".ppt" ∨ ext = ".pptx" then .ppt
  else .stream

/-- TS `detectFeishuFileType` (lines 156-180). -/
def detectFeishuFileType (fileName : String) : FeishuFileType :=
  feishuTypeOfExt (extLower fileName)

/-- TS `const IMAGE_EXTENSIONS = [...]` (line 25). -/
def IMAGE_EXTENSIONS : List String :=
  [".jpg", ".jpeg", ".png", ".gif", ".webp", ".bmp", ".ico", ".tiff"]

/-- TS `isFeishuImagePath` (lines 185-188). -/
def isFeishuImagePath (filePath : String) : Bool :=
  IMAGE_EXTENSIONS.contains (extLower filePath)

/-- TS `isFeishuAudioPath` (lines 193-196). -/
def isFeishuAudioPath (filePath : String) : Bool :=
  [".opus", ".ogg", ".mp3", ".wav", ".m4a", ".aac", ".amr"].contains (extLower filePath)

/-- Value of a hexadecimal digit character. -/
def hexDigitVal (c : Char) : Option Nat :=
  if '0' ≤ c ∧ c ≤ '9' then some (c.toNat - '0'.toNat)
  else if 'a' ≤ c ∧ c ≤ 'f' then some (c.toNat - 'a'.toNat + 10)
  else if 'A' ≤ c ∧ c ≤ 'F' then some (c.toNat - 'A'.toNat + 10)
  else none

/-- Parse a maximal run of `%XY` escapes into byte values; `none` when a `%`
is not followed by two hex digits (JS `decodeURIComponent` throws there). -/
def percentRun : List Char → Option (List Nat × List Char)
  | '%' :: h :: l :: rest =>
    match hexDigitVal h, hexDigitVal l with
    | some hi, some lo =>
      match percentRun rest with
      | some (bs, r) => some ((16 * hi + lo) :: bs, r)
      | none => none
    | _, _ => none
  | '%' :: _ => none
  | rest => some ([], rest)

/-- Is `b` a UTF-8 continuation byte (`0x80..0xBF`)? -/
def isContByte (b : Nat) : Bool :=
  0x80 ≤ b && b ≤ 0xBF

/-- Strict UTF-8 decoding of a byte-value list (rejecting overlong forms,
surrogates and code points above `0x10FFFF`), as `decodeURIComponent`
requires. -/
def utf8Decode : List Nat → Option (List Char)
  | [] => some []
  | b :: rest =>
    if b < 0x80 then
      match utf8Decode rest with
      | some cs => some (Char.ofNat b :: cs)
      | none => none
    else if 0xC2 ≤ b ∧ b ≤ 0xDF then
      match rest with
      | c1 :: rest2 =>
        if isContByte c1 then
          match utf8Decode rest2 with
          | some cs => some (Char.ofNat ((b - 0xC0) * 64 + (c1 - 0x80)) :: cs)
          | none => none
        else none
      | [] => none
    else if 0xE0 ≤ b ∧ b ≤ 0xEF then
      match rest with
      | c1 :: c2 :: rest2 =>
        if isContByte c1 && isContByte c2 then
          let cp := (b - 0xE0) * 4096 + (c1 - 0x80) * 64 + (c2 - 0x80)
          if 0x800 ≤ cp ∧ ¬(0xD800 ≤ cp ∧ cp ≤ 0xDFFF) then
            match utf8Decode rest2 with
            | some cs => some (Char.ofNat cp :: cs)
            | none => none
          else none
        else none
      | _ => none
    else if 0xF0 ≤ b ∧ b ≤ 0xF4 then
      match rest with
      | c1 :: c2 :: c3 :: rest2 =>
        if isContByte c1 && isContByte c2 && isContByte c3 then
          let cp := (b - 0xF0) * 262144 + (c1 - 0x80) * 4096 + (c2 - 0x80) * 64 + (c3 - 0x80)
          if 0x10000 ≤ cp ∧ cp ≤ 0x10FFFF then
            match utf8Decode rest2 with
            | some cs => some (Char.ofNat cp :: cs)
            | none => none
          else none
        else none
      | _ => none
    else none

/-- Worker for `decodeURIComponentModel`; the fuel argument only bounds the
recursion and is always at least the list length at the call site, which a
step consuming at least one character per unit of fuel can never exhaust. -/
def decodeChars : Nat → List Char → Except String (List Char)
  | _, [] => .ok []
  | 0, _ :: _ => .error "URI malformed"
  | fuel + 1, '%' :: rest =>
    match percentRun ('%' :: rest) with
    | none => .error "URI malformed"
    | some (bytes, rest2) =>
      match utf8Decode bytes with
      | none => .error "URI malformed"
      | some cs =>
        match decodeChars fuel rest2 with
        | .ok tail => .ok (cs ++ tail)
        | .error e => .error e
  | fuel + 1, c :: rest =>
    match decodeChars fuel rest with
    | .ok tail => .ok (c :: tail)
    | .error e => .error e

/-- Model of JS `decodeURIComponent` (platform builtin): percent-decode with
strict UTF-8 validation; a malformed escape or byte sequence throws
`URIError` (modelled as `Except.error "URI malformed"`). -/
def decodeURIComponentModel (s : String) : Except String String :=
  match decodeChars s.data.length s.data with
  | .ok cs => .ok ⟨cs⟩
  | .error e => .error e

/-- Model of JS `s.startsWith(pre)`. -/
def jsStartsWith (s pre : String) : Bool :=
  pre.data.isPrefixOf s.data

/-- `s` with its first `n` characters removed (used for the effect of
`resolved.replace('file://', '')` and `resolved.replace('~', home)` when the
pattern is known to sit at position 0). -/
def stringDrop (s : String) (n : Nat) : String :=
  ⟨s.data.drop n⟩

/-- TS `resolveFeishuMediaPath` (lines 201-215).  `homeEnv` is
`process.env.HOME` (`none` when unset).  `replace('file://', '')` under the
`startsWith('file:///')` guard removes exactly the 7 leading characters,
and `replace('~', h)` under the `startsWith('~')` guard replaces exactly
the leading character.  `decodeURIComponent` may throw, which the TS
function does not catch, hence the `Except` result. -/
def resolveFeishuMediaPath (homeEnv : Option String) (rawPath : String) : Except String String :=
  match (if jsStartsWith rawPath "file:///" then decodeURIComponentModel (stringDrop rawPath 7)
         else .ok rawPath) with
  | .error e => .error e
  | .ok resolved =>
    .ok (if jsStartsWith resolved "~" then (homeEnv.getD "") ++ stringDrop resolved 1
         else resolved)

/-- Environment for exercising the oversize path: `statSync` reports
40,000,000 bytes (≈ 38.1 MiB). -/
def envStatBig : UploadEnv :=
  ⟨fun _ => .ok 40000000, .ok (), .error "unreachable", .error "unreachable"⟩

/-- Endpoint response with `code: 0` and a present but empty top-level key,
while `data` carries a nonempty key. -/
def respEmptyTopKey : FeishuResponse :=
  ⟨some 0, none, some "", some "", some ⟨some "real_image_key", some "real_file_key"⟩⟩

/-- Environment whose endpoint returns `respEmptyTopKey`. -/
def envEmptyTopKey : UploadEnv :=
  ⟨fun _ => .ok 1048576, .ok (), .ok respEmptyTopKey, .ok respEmptyTopKey⟩

/-- Endpoint response with `code: 0` and nonempty keys at top level. -/
def respGoodKey : FeishuResponse :=
  ⟨some 0, none, some "img_v2_ok", some "file_v3_ok", none⟩

/-- Environment whose endpoint returns `respGoodKey`. -/
def envGoodKey : UploadEnv :=
  ⟨fun _ => .ok 1048576, .ok (), .ok respGoodKey, .ok respGoodKey⟩

/-- Endpoint response with `code: 1` and a present but empty `msg`. -/
def respEmptyMsg : FeishuResponse :=
  ⟨some 1, some "", none, none, none⟩

/-- Environment whose endpoint returns `respEmptyMsg`. -/
def envEmptyMsg : UploadEnv :=
  ⟨fun _ => .ok 0, .ok (), .ok respEmptyMsg, .ok respEmptyMsg⟩

/-- Endpoint response with `code: 1` and absent `msg`. -/
def respNoMsg : FeishuResponse :=
  ⟨some 1, none, none, none, none⟩

/-- Environment whose endpoint returns `respNoMsg`. -/
def envNoMsg : UploadEnv :=
  ⟨fun _ => .ok 0, .ok (), .ok respNoMsg, .ok respNoMsg⟩

/-- Endpoint response with `code: 1, msg: "invalid"`. -/
def respInvalidMsg : FeishuResponse :=
  ⟨some 1, some "invalid", none, none, none⟩

/-- Environment whose endpoint returns `respInvalidMsg`. -/
def envInvalidMsg : UploadEnv :=
  ⟨fun _ => .ok 0, .ok (), .ok respInvalidMsg, .ok respInvalidMsg⟩

/-- Endpoint response with `code: 0` and no key anywhere. -/
def respNoKey : FeishuResponse :=
  ⟨some 0, none, none, none, none⟩

/-- Environment whose endpoint returns `respNoKey`. -/
def envNoKey : UploadEnv :=
  ⟨fun _ => .ok 0, .ok (), .ok respNoKey, .ok respNoKey⟩

/-- Environment where `fs.statSync` throws (file missing). -/
def envStatThrows : UploadEnv :=
  ⟨fun _ => .error "ENOENT: no such file or directory", .ok (), .ok respGoodKey, .ok respGoodKey⟩

/-- Environment where the size check passes but the SDK call throws. -/
def envRemoteThrows : UploadEnv :=
  ⟨fun _ => .ok 1048576, .ok (), .error "socket hang up", .error "socket hang up"⟩

theorem uploadImage_sizeOk (env : UploadEnv) (image : ByteSource) (t : FeishuImageType)
    (h : sizeOk env image) :
    uploadImageToFeishu env image t = imagePhase2 env t := by
  cases image with
  | buffer bytes =>
    simp only [uploadImageToFeishu]
    rw [if_neg (Nat.not_lt.mpr h)]
  | filePath p =>
    obtain ⟨n, hs, hn⟩ := h
    simp only [uploadImageToFeishu, hs]
    rw [if_neg (Nat.not_lt.mpr hn)]

theorem uploadFile_sizeOk (env : UploadEnv) (file : ByteSource) (fn : String)
    (ft : FeishuFileType) (d : Option Nat) (h : sizeOk env file) :
    uploadFileToFeishu env file fn ft d = filePhase2 env fn ft d := by
  cases file with
  | buffer bytes =>
    simp only [uploadFileToFeishu]
    rw [if_neg (Nat.not_lt.mpr h)]
  | filePath p =>
    obtain ⟨n, hs, hn⟩ := h
    simp only [uploadFileToFeishu, hs]
    rw [if_neg (Nat.not_lt.mpr hn)]

theorem imagePhase2_ok (env : UploadEnv) (t : FeishuImageType) (response : FeishuResponse)
    (hs : env.createStream = .ok ()) (hc : env.imageCreate = .ok response) :
    imagePhase2 env t = (imageRespResult response, ⟨true, false, some ⟨t⟩⟩) := by
  simp only [imagePhase2, hs, hc]

theorem filePhase2_ok (env : UploadEnv) (fn : String) (ft : FeishuFileType) (d : Option Nat)
    (response : FeishuResponse)
    (hs : env.createStream = .ok ()) (hc : env.fileCreate = .ok response) :
    filePhase2 env fn ft d = (fileRespResult response, ⟨true, false, some ⟨ft, fn, d⟩⟩) := by
  simp only [filePhase2, hs, hc]

/-- Claim C1: for every byte source (in-memory buffer or file path) whose
byte length exceeds 31,457,280 bytes, both `uploadImageToFeishu` and
`uploadFileToFeishu` return a failure result whose message embeds the
actual size in MiB with one decimal place (`mibToFixed1`), and the remote
endpoint is never invoked (the trace records no stream and no request). -/
theorem c1_oversize_never_reaches_endpoint :
    MAX_FILE_SIZE = 31457280 ∧
    (∀ (env : UploadEnv) (bytes : List UInt8) (t : FeishuImageType),
      bytes.length > MAX_FILE_SIZE →
      uploadImageToFeishu env (.buffer bytes) t =
        (⟨false, none, some ("Image too large: " ++ mibToFixed1 bytes.length ++ "MB (limit 30MB)")⟩,
         ⟨false, false, none⟩)) ∧
    (∀ (env : UploadEnv) (p : String) (t : FeishuImageType) (n : Nat),
      env.statSize p = .ok n → n > MAX_FILE_SIZE →
      uploadImageToFeishu env (.filePath p) t =
        (⟨false, none, some ("Image too large: " ++ mibToFixed1 n ++ "MB (limit 30MB)")⟩,
         ⟨false, false, none⟩)) ∧
    (∀ (env : UploadEnv) (bytes : List UInt8) (fn : String) (ft : FeishuFileType) (d : Option Nat),
      bytes.length > MAX_FILE_SIZE →
      uploadFileToFeishu env (.buffer bytes) fn ft d =
        (⟨false, none, some ("Buffer too large: " ++ mibToFixed1 bytes.length ++ "MB (limit 30MB)")⟩,
         ⟨false, false, none⟩)) ∧
    (∀ (env : UploadEnv) (p fn : String) (ft : FeishuFileType) (d : Option Nat) (n : Nat),
      env.statSize p = .ok n → n > MAX_FILE_SIZE →
      uploadFileToFeishu env (.filePath p) fn ft d =
        (⟨false, none, some ("File too large: " ++ mibToFixed1 n ++ "MB (limit 30MB)")⟩,
         ⟨false, false, none⟩)) := by
  refine ⟨by decide, ?_, ?_, ?_, ?_⟩
  · intro env bytes t h
    simp [uploadImageToFeishu, h]
  · intro env p t n hs h
    simp [uploadImageToFeishu, hs, h]
  · intro env bytes fn ft d h
    simp [uploadFileToFeishu, h]
  · intro env p fn ft d n hs h
    simp [uploadFileToFeishu, hs, h]

/-- Witness for C1: a 40,000,000-byte file is rejected as "38.1MB" and the
endpoint is not called. -/
theorem c1_witness :
    envStatBig.statSize "/tmp/big.png" = .ok 40000000 ∧
    40000000 > MAX_FILE_SIZE ∧
    uploadImageToFeishu envStatBig (.filePath "/tmp/big.png") .message =
      (⟨false, none, some "Image too large: 38.1MB (limit 30MB)"⟩, ⟨false, false, none⟩) :=
  ⟨rfl, by decide,
    (c1_oversize_never_reaches_endpoint.2.2.1 envStatBig "/tmp/big.png" FeishuImageType.message
      40000000 rfl (by decide)).trans (by decide)⟩

/-- Claim C2 counterexample: a byte source of length 0 (at most the limit)
and a response with `code: 0` carrying a valid-in-the-claim's-sense
(non-absent) top-level key, namely `some ""`, on which both functions
return a failure, not a success with that key. -/
theorem c2_counterexample_present_but_empty_key :
    ([] : List UInt8).length ≤ MAX_FILE_SIZE ∧
    envEmptyTopKey.imageCreate = .ok respEmptyTopKey ∧
    envEmptyTopKey.fileCreate = .ok respEmptyTopKey ∧
    respEmptyTopKey.code = some 0 ∧
    respEmptyTopKey.image_key = some "" ∧
    respEmptyTopKey.file_key = some "" ∧
    (uploadImageToFeishu envEmptyTopKey (.buffer []) .message).1 =
      ⟨false, none, some "No image_key returned"⟩ ∧
    (uploadFileToFeishu envEmptyTopKey (.buffer []) "a.txt" .stream none).1 =
      ⟨false, none, some "No file_key returned"⟩ :=
  ⟨by decide, rfl, rfl, rfl, rfl, rfl, rfl, rfl⟩

/-- Claim C2 amended: for every byte source with length at most 31,457,280
bytes, if the remote endpoint's response has code 0 (or no code field) and
the extracted key — the first non-nullish of the top-level field and the
nested `data` field — is a non-empty string, then `uploadImageToFeishu`
returns success with that image key and `uploadFileToFeishu` returns
success with that file key. -/
theorem c2_amended_success_requires_truthy_key :
    (∀ (env : UploadEnv) (img : ByteSource) (t : FeishuImageType) (r : FeishuResponse) (k : String),
      sizeOk env img → env.createStream = .ok () → env.imageCreate = .ok r →
      (r.code = none ∨ r.code = some 0) →
      jsNullish r.image_key (r.data.bind FeishuData.image_key) = some k → k ≠ "" →
      uploadImageToFeishu env img t = (⟨true, some k, none⟩, ⟨true, false, some ⟨t⟩⟩)) ∧
    (∀ (env : UploadEnv) (file : ByteSource) (fn : String) (ft : FeishuFileType) (d : Option Nat)
      (r : FeishuResponse) (k : String),
      sizeOk env file → env.createStream = .ok () → env.fileCreate = .ok r →
      (r.code = none ∨ r.code = some 0) →
      jsNullish r.file_key (r.data.bind FeishuData.file_key) = some k → k ≠ "" →
      uploadFileToFeishu env file fn ft d = (⟨true, some k, none⟩, ⟨true, false, some ⟨ft, fn, d⟩⟩)) := by
  constructor
  · intro env img t r k hsz hs hc hcode hk hne
    rw [uploadImage_sizeOk env img t hsz, imagePhase2_ok env t r hs hc]
    rcases hcode with h0 | h0 <;>
      simp [imageRespResult, h0, hk, jsTruthyStr, hne]
  · intro env file fn ft d r k hsz hs hc hcode hk hne
    rw [uploadFile_sizeOk env file fn ft d hsz, filePhase2_ok env fn ft d r hs hc]
    rcases hcode with h0 | h0 <;>
      simp [fileRespResult, h0, hk, jsTruthyStr, hne]

/-- Witness for the amended C2: a code-0 response with nonempty top-level
keys yields success with those keys. -/
theorem c2_amended_witness :
    sizeOk envGoodKey (.buffer []) ∧
    envGoodKey.createStream = .ok () ∧
    envGoodKey.imageCreate = .ok respGoodKey ∧
    (respGoodKey.code = none ∨ respGoodKey.code = some 0) ∧
    jsNullish respGoodKey.image_key (respGoodKey.data.bind FeishuData.image_key) = some "img_v2_ok" ∧
    "img_v2_ok" ≠ "" ∧
    uploadImageToFeishu envGoodKey (.buffer []) .message =
      (⟨true, some "img_v2_ok", none⟩, ⟨true, false, some ⟨.message⟩⟩) :=
  ⟨Nat.zero_le _, rfl, rfl, Or.inr rfl, rfl, by decide,
    c2_amended_success_requires_truthy_key.1 envGoodKey (.buffer []) FeishuImageType.message
      respGoodKey "img_v2_ok" (Nat.zero_le _) rfl rfl (Or.inr rfl) rfl (by decide)⟩

/-- Claim C3 counterexample: a response with `code: 1` and a *present* but
empty `msg` is surfaced as the generic `"code 1"` string — identical to the
absent-`msg` output — rather than using the present msg text, because the
source tests `msg` with `||` (truthiness), not presence. -/
theorem c3_counterexample_present_empty_msg :
    respEmptyMsg.code = some 1 ∧
    respEmptyMsg.msg = some "" ∧
    (uploadImageToFeishu envEmptyMsg (.buffer []) .message).1.error =
      some "Feishu error: code 1" ∧
    (uploadImageToFeishu envEmptyMsg (.buffer []) .message).1.error =
      (uploadImageToFeishu envNoMsg (.buffer []) .message).1.error ∧
    "Feishu error: code 1" ≠ "Feishu error: " ++ "" :=
  ⟨rfl, rfl, rfl, rfl, by decide⟩

/-- Claim C3 amended: in both upload operations a response whose code field
is present and nonzero yields a failure whose message uses the response's
msg text when it is present and non-empty, else the string "code N" with N
the numeric code; a response with no code field at all is not treated as a
remote-side failure.  A response with code 1 and msg "invalid" yields a
failure whose message contains "invalid". -/
theorem c3_amended_nonzero_code_failure :
    (∀ (env : UploadEnv) (img : ByteSource) (t : FeishuImageType) (r : FeishuResponse)
      (c : Int) (m : String),
      sizeOk env img → env.createStream = .ok () → env.imageCreate = .ok r →
      r.code = some c → c ≠ 0 → r.msg = some m → m ≠ "" →
      uploadImageToFeishu env img t =
        (⟨false, none, some ("Feishu error: " ++ m)⟩, ⟨true, false, some ⟨t⟩⟩)) ∧
    (∀ (env : UploadEnv) (img : ByteSource) (t : FeishuImageType) (r : FeishuResponse) (c : Int),
      sizeOk env img → env.createStream = .ok () → env.imageCreate = .ok r →
      r.code = some c → c ≠ 0 → (r.msg = none ∨ r.msg = some "") →
      uploadImageToFeishu env img t =
        (⟨false, none, some ("Feishu error: " ++ ("code " ++ toString c))⟩, ⟨true, false, some ⟨t⟩⟩)) ∧
    (∀ (env : UploadEnv) (img : ByteSource) (t : FeishuImageType) (r : FeishuResponse),
      sizeOk env img → env.createStream = .ok () → env.imageCreate = .ok r →
      r.code = none →
      ((uploadImageToFeishu env img t).1.success = true ∧
        (uploadImageToFeishu env img t).1.error = none) ∨
      (uploadImageToFeishu env img t).1.error = some "No image_key returned") ∧
    (∀ (env : UploadEnv) (file : ByteSource) (fn : String) (ft : FeishuFileType) (d : Option Nat)
      (r : FeishuResponse) (c : Int) (m : String),
      sizeOk env file → env.createStream = .ok () → env.fileCreate = .ok r →
      r.code = some c → c ≠ 0 → r.msg = some m → m ≠ "" →
      uploadFileToFeishu env file fn ft d =
        (⟨false, none, some ("Feishu error: " ++ m)⟩, ⟨true, false, some ⟨ft, fn, d⟩⟩)) ∧
    (∀ (env : UploadEnv) (file : ByteSource) (fn : String) (ft : FeishuFileType) (d : Option Nat)
      (r : FeishuResponse) (c : Int),
      sizeOk env file → env.createStream = .ok () → env.fileCreate = .ok r →
      r.code = some c → c ≠ 0 → (r.msg = none ∨ r.msg = some "") →
      uploadFileToFeishu env file fn ft d =
        (⟨false, none, some ("Feishu error: " ++ ("code " ++ toString c))⟩, ⟨true, false, some ⟨ft, fn, d⟩⟩)) ∧
    (∀ (env : UploadEnv) (file : ByteSource) (fn : String) (ft : FeishuFileType) (d : Option Nat)
      (r : FeishuResponse),
      sizeOk env file → env.createStream = .ok () → env.fileCreate = .ok r →
      r.code = none →
      ((uploadFileToFeishu env file fn ft d).1.success = true ∧
        (uploadFileToFeishu env file fn ft d).1.error = none) ∨
      (uploadFileToFeishu env file fn ft d).1.error = some "No file_key returned") := by
  refine ⟨?_, ?_, ?_, ?_, ?_, ?_⟩
  · intro env img t r c m hsz hs hc hcode hcne hmsg hmne
    rw [uploadImage_sizeOk env img t hsz, imagePhase2_ok env t r hs hc]
    simp [imageRespResult, hcode, hcne, jsOrElseStr, hmsg, hmne]
  · intro env img t r c hsz hs hc hcode hcne hmsg
    rw [uploadImage_sizeOk env img t hsz, imagePhase2_ok env t r hs hc]
    rcases hmsg with hm | hm <;>
      simp [imageRespResult, hcode, hcne, jsOrElseStr, hm]
  · intro env img t r hsz hs hc hcode
    rw [uploadImage_sizeOk env img t hsz, imagePhase2_ok env t r hs hc]
    by_cases hk : jsTruthyStr (jsNullish r.image_key (r.data.bind FeishuData.image_key)) = true
    · left
      simp [imageRespResult, hcode, hk]
    · right
      simp [imageRespResult, hcode, hk]
  · intro env file fn ft d r c m hsz hs hc hcode hcne hmsg hmne
    rw [uploadFile_sizeOk env file fn ft d hsz, filePhase2_ok env fn ft d r hs hc]
    simp [fileRespResult, hcode, hcne, jsOrElseStr, hmsg, hmne]
  · intro env file fn ft d r c hsz hs hc hcode hcne hmsg
    rw [uploadFile_sizeOk env file fn ft d hsz, filePhase2_ok env fn ft d r hs hc]
    rcases hmsg with hm | hm <;>
      simp [fileRespResult, hcode, hcne, jsOrElseStr, hm]
  · intro env file fn ft d r hsz hs hc hcode
    rw [uploadFile_sizeOk env file fn ft d hsz, filePhase2_ok env fn ft d r hs hc]
    by_cases hk : jsTruthyStr (jsNullish r.file_key (r.data.bind FeishuData.file_key)) = true
    · left
      simp [fileRespResult, hcode, hk]
    · right
      simp [fileRespResult, hcode, hk]

/-- Witness for the amended C3: `code: 1, msg: "invalid"` yields the failure
message "Feishu error: invalid", which contains "invalid". -/
theorem c3_amended_witness :
    sizeOk envInvalidMsg (.buffer []) ∧
    respInvalidMsg.code = some 1 ∧
    respInvalidMsg.msg = some "invalid" ∧
    uploadImageToFeishu envInvalidMsg (.buffer []) .message =
      (⟨false, none, some "Feishu error: invalid"⟩, ⟨true, false, some ⟨.message⟩⟩) ∧
    (∃ pre post : String, "Feishu error: invalid" = pre ++ "invalid" ++ post) :=
  ⟨Nat.zero_le _, rfl, rfl,
    (c3_amended_nonzero_code_failure.1 envInvalidMsg (.buffer []) FeishuImageType.message
      respInvalidMsg 1 "invalid" (Nat.zero_le _) rfl rfl rfl (by decide) rfl (by decide)).trans
      (by decide),
    ⟨"Feishu error: ", "", by decide⟩⟩

/-- Claim C4: when the response indicates success (code absent or 0) but
neither a top-level key nor a nested `data` key is present,
`uploadImageToFeishu` fails with exactly "No image_key returned" and
`uploadFileToFeishu` with exactly "No file_key returned"; and the key is
looked up first at top level (a nonempty top-level key wins regardless of
`data`) and then under `data` (used when the top-level field is absent). -/
theorem c4_missing_key_failure_and_lookup_order :
    (∀ (env : UploadEnv) (img : ByteSource) (t : FeishuImageType) (r : FeishuResponse),
      sizeOk env img → env.createStream = .ok () → env.imageCreate = .ok r →
      (r.code = none ∨ r.code = some 0) →
      r.image_key = none → r.data.bind FeishuData.image_key = none →
      uploadImageToFeishu env img t =
        (⟨false, none, some "No image_key returned"⟩, ⟨true, false, some ⟨t⟩⟩)) ∧
    (∀ (env : UploadEnv) (img : ByteSource) (t : FeishuImageType) (r : FeishuResponse) (k : String),
      sizeOk env img → env.createStream = .ok () → env.imageCreate = .ok r →
      (r.code = none ∨ r.code = some 0) →
      r.image_key = some k → k ≠ "" →
      uploadImageToFeishu env img t = (⟨true, some k, none⟩, ⟨true, false, some ⟨t⟩⟩)) ∧
    (∀ (env : UploadEnv) (img : ByteSource) (t : FeishuImageType) (r : FeishuResponse) (k : String),
      sizeOk env img → env.createStream = .ok () → env.imageCreate = .ok r →
      (r.code = none ∨ r.code = some 0) →
      r.image_key = none → r.data.bind FeishuData.image_key = some k → k ≠ "" →
      uploadImageToFeishu env img t = (⟨true, some k, none⟩, ⟨true, false, some ⟨t⟩⟩)) ∧
    (∀ (env : UploadEnv) (file : ByteSource) (fn : String) (ft : FeishuFileType) (d : Option Nat)
      (r : FeishuResponse),
      sizeOk env file → env.createStream = .ok () → env.fileCreate = .ok r →
      (r.code = none ∨ r.code = some 0) →
      r.file_key = none → r.data.bind FeishuData.file_key = none →
      uploadFileToFeishu env file fn ft d =
        (⟨false, none, some "No file_key returned"⟩, ⟨true, false, some ⟨ft, fn, d⟩⟩)) ∧
    (∀ (env : UploadEnv) (file : ByteSource) (fn : String) (ft : FeishuFileType) (d : Option Nat)
      (r : FeishuResponse) (k : String),
      sizeOk env file → env.createStream = .ok () → env.fileCreate = .ok r →
      (r.code = none ∨ r.code = some 0) →
      r.file_key = some k → k ≠ "" →
      uploadFileToFeishu env file fn ft d = (⟨true, some k, none⟩, ⟨true, false, some ⟨ft, fn, d⟩⟩)) ∧
    (∀ (env : UploadEnv) (file : ByteSource) (fn : String) (ft : FeishuFileType) (d : Option Nat)
      (r : FeishuResponse) (k : String),
      sizeOk env file → env.createStream = .ok () → env.fileCreate = .ok r →
      (r.code = none ∨ r.code = some 0) →
      r.file_key = none → r.data.bind FeishuData.file_key = some k → k ≠ "" →
      uploadFileToFeishu env file fn ft d = (⟨true, some k, none⟩, ⟨true, false, some ⟨ft, fn, d⟩⟩)) := by
  refine ⟨?_, ?_, ?_, ?_, ?_, ?_⟩
  · intro env img t r hsz hs hc hcode hk1 hk2
    rw [uploadImage_sizeOk env img t hsz, imagePhase2_ok env t r hs hc]
    rcases hcode with h0 | h0 <;>
      simp [imageRespResult, h0, jsNullish, hk1, hk2, jsTruthyStr]
  · intro env img t r k hsz hs hc hcode hk hne
    rw [uploadImage_sizeOk env img t hsz, imagePhase2_ok env t r hs hc]
    rcases hcode with h0 | h0 <;>
      simp [imageRespResult, h0, jsNullish, hk, jsTruthyStr, hne]
  · intro env img t r k hsz hs hc hcode hk1 hk2 hne
    rw [uploadImage_sizeOk env img t hsz, imagePhase2_ok env t r hs hc]
    rcases hcode with h0 | h0 <;>
      simp [imageRespResult, h0, jsNullish, hk1, hk2, jsTruthyStr, hne]
  · intro env file fn ft d r hsz hs hc hcode hk1 hk2
    rw [uploadFile_sizeOk env file fn ft d hsz, filePhase2_ok env fn ft d r hs hc]
    rcases hcode with h0 | h0 <;>
      simp [fileRespResult, h0, jsNullish, hk1, hk2, jsTruthyStr]
  · intro env file fn ft d r k hsz hs hc hcode hk hne
    rw [uploadFile_sizeOk env file fn ft d hsz, filePhase2_ok env fn ft d r hs hc]
    rcases hcode with h0 | h0 <;>
      simp [fileRespResult, h0, jsNullish, hk, jsTruthyStr, hne]
  · intro env file fn ft d r k hsz hs hc hcode hk1 hk2 hne
    rw [uploadFile_sizeOk env file fn ft d hsz, filePhase2_ok env fn ft d r hs hc]
    rcases hcode with h0 | h0 <;>
      simp [fileRespResult, h0, jsNullish, hk1, hk2, jsTruthyStr, hne]

/-- Witness for C4: a code-0 response with no key anywhere yields exactly
"No image_key returned". -/
theorem c4_witness :
    sizeOk envNoKey (.buffer []) ∧
    (respNoKey.code = none ∨ respNoKey.code = some 0) ∧
    respNoKey.image_key = none ∧
    respNoKey.data.bind FeishuData.image_key = none ∧
    uploadImageToFeishu envNoKey (.buffer []) .message =
      (⟨false, none, some "No image_key returned"⟩, ⟨true, false, some ⟨.message⟩⟩) :=
  ⟨Nat.zero_le _, Or.inr rfl, rfl, rfl,
    c4_missing_key_failure_and_lookup_order.1 envNoKey (.buffer []) FeishuImageType.message
      respNoKey (Nat.zero_le _) rfl rfl (Or.inr rfl) rfl rfl⟩

/-- Claim C5: neither upload function propagates an exception: an exception
thrown by the file-size stat, by stream construction, or by the remote call
is converted into a failure result carrying that exception's message (the
model is total, so these equations cover every throwing stage on every
input, buffer or path). -/
theorem c5_exceptions_become_failures :
    (∀ (env : UploadEnv) (p : String) (t : FeishuImageType) (e : String),
      env.statSize p = .error e →
      uploadImageToFeishu env (.filePath p) t = (⟨false, none, some e⟩, ⟨false, false, none⟩)) ∧
    (∀ (env : UploadEnv) (img : ByteSource) (t : FeishuImageType) (e : String),
      sizeOk env img → env.createStream = .error e →
      uploadImageToFeishu env img t = (⟨false, none, some e⟩, ⟨false, false, none⟩)) ∧
    (∀ (env : UploadEnv) (img : ByteSource) (t : FeishuImageType) (e : String),
      sizeOk env img → env.createStream = .ok () → env.imageCreate = .error e →
      uploadImageToFeishu env img t = (⟨false, none, some e⟩, ⟨true, false, some ⟨t⟩⟩)) ∧
    (∀ (env : UploadEnv) (p fn : String) (ft : FeishuFileType) (d : Option Nat) (e : String),
      env.statSize p = .error e →
      uploadFileToFeishu env (.filePath p) fn ft d = (⟨false, none, some e⟩, ⟨false, false, none⟩)) ∧
    (∀ (env : UploadEnv) (file : ByteSource) (fn : String) (ft : FeishuFileType) (d : Option Nat)
      (e : String),
      sizeOk env file → env.createStream = .error e →
      uploadFileToFeishu env file fn ft d = (⟨false, none, some e⟩, ⟨false, false, none⟩)) ∧
    (∀ (env : UploadEnv) (file : ByteSource) (fn : String) (ft : FeishuFileType) (d : Option Nat)
      (e : String),
      sizeOk env file → env.createStream = .ok () → env.fileCreate = .error e →
      uploadFileToFeishu env file fn ft d = (⟨false, none, some e⟩, ⟨true, false, some ⟨ft, fn, d⟩⟩)) := by
  refine ⟨?_, ?_, ?_, ?_, ?_, ?_⟩
  · intro env p t e h
    simp [uploadImageToFeishu, h]
  · intro env img t e hsz h
    rw [uploadImage_sizeOk env img t hsz]
    simp [imagePhase2, h]
  · intro env img t e hsz hs hc
    rw [uploadImage_sizeOk env img t hsz]
    simp [imagePhase2, hs, hc]
  · intro env p fn ft d e h
    simp [uploadFileToFeishu, h]
  · intro env file fn ft d e hsz h
    rw [uploadFile_sizeOk env file fn ft d hsz]
    simp [filePhase2, h]
  · intro env file fn ft d e hsz hs hc
    rw [uploadFile_sizeOk env file fn ft d hsz]
    simp [filePhase2, hs, hc]

/-- Witness for C5: a missing file makes `statSync` throw; the thrown
message comes back as the failure's error. -/
theorem c5_witness :
    envStatThrows.statSize "/missing.png" = .error "ENOENT: no such file or directory" ∧
    uploadImageToFeishu envStatThrows (.filePath "/missing.png") .message =
      (⟨false, none, some "ENOENT: no such file or directory"⟩, ⟨false, false, none⟩) :=
  ⟨rfl,
    c5_exceptions_become_failures.1 envStatThrows "/missing.png" FeishuImageType.message
      "ENOENT: no such file or directory" rfl⟩

/-- Claim C6: `detectFeishuFileType` is a total, case-insensitive pure
function of the file name's extension following the fixed table (.opus/.ogg
to opus; .mp4/.mov/.avi to mp4; .pdf to pdf; .doc/.docx to doc; .xls/.xlsx
to xls; .ppt/.pptx to ppt; everything else to stream); in particular
"a.DOCX" maps to doc and "a.xyz" to stream.  (Totality is inherent: the
model is a total Lean function.) -/
theorem c6_detect_type_table :
    (∀ p q : String, extLower p = extLower q →
      detectFeishuFileType p = detectFeishuFileType q) ∧
    (∀ p : String, extLower p = ".opus" ∨ extLower p = ".ogg" →
      detectFeishuFileType p = .opus) ∧
    (∀ p : String, extLower p = ".mp4" ∨ extLower p = ".mov" ∨ extLower p = ".avi" →
      detectFeishuFileType p = .mp4) ∧
    (∀ p : String, extLower p = ".pdf" → detectFeishuFileType p = .pdf) ∧
    (∀ p : String, extLower p = ".doc" ∨ extLower p = ".docx" →
      detectFeishuFileType p = .doc) ∧
    (∀ p : String, extLower p = ".xls" ∨ extLower p = ".xlsx" →
      detectFeishuFileType p = .xls) ∧
    (∀ p : String, extLower p = ".ppt" ∨ extLower p = ".pptx" →
      detectFeishuFileType p = .ppt) ∧
    (∀ p : String,
      extLower p ∉ ([".opus", ".ogg", ".mp4", ".mov", ".avi", ".pdf", ".doc", ".docx",
        ".xls", ".xlsx", ".ppt", ".pptx"] : List String) →
      detectFeishuFileType p = .stream) ∧
    detectFeishuFileType "a.DOCX" = .doc ∧
    detectFeishuFileType "a.xyz" = .stream := by
  refine ⟨?_, ?_, ?_, ?_, ?_, ?_, ?_, ?_, by decide, by decide⟩
  · intro p q h
    exact congrArg feishuTypeOfExt h
  · intro p h
    show feishuTypeOfExt (extLower p) = _
    rcases h with h | h <;> rw [h] <;> decide
  · intro p h
    show feishuTypeOfExt (extLower p) = _
    rcases h with h | h | h <;> rw [h] <;> decide
  · intro p h
    show feishuTypeOfExt (extLower p) = _
    rw [h]
    decide
  · intro p h
    show feishuTypeOfExt (extLower p) = _
    rcases h with h | h <;> rw [h] <;> decide
  · intro p h
    show feishuTypeOfExt (extLower p) = _
    rcases h with h | h <;> rw [h] <;> decide
  · intro p h
    show feishuTypeOfExt (extLower p) = _
    rcases h with h | h <;> rw [h] <;> decide
  · intro p h
    simp only [List.mem_cons, List.not_mem_nil, or_false, not_or] at h
    obtain ⟨h1, h2, h3, h4, h5, h6, h7, h8, h9, h10, h11, h12⟩ := h
    show feishuTypeOfExt (extLower p) = _
    simp [feishuTypeOfExt, h1, h2, h3, h4, h5, h6, h7, h8, h9, h10, h11, h12]

/-- Witness for C6: a concrete upper-case extension hits the table
case-insensitively. -/
theorem c6_witness :
    extLower "b.OGG" = ".ogg" ∧ detectFeishuFileType "b.OGG" = .opus :=
  ⟨by decide, c6_detect_type_table.2.1 "b.OGG" (Or.inr (by decide))⟩

/-- Claim C7: `resolveFeishuMediaPath` applies exactly two transforms in
order: iff the input starts with "file:///" the "file://" prefix (7
characters) is stripped and the remainder percent-decoded (inputs starting
with "file://" but not "file:///" are untouched by this step); then iff the
intermediate result starts with "~" that leading character is replaced by
the home directory (the empty string when HOME is unset).  The result is
returned without any existence check (the model is a pure function of the
path and HOME alone).  In particular "file:///Users/x/a b.png" resolves to
"/Users/x/a b.png". -/
theorem c7_resolve_two_transforms :
    (∀ (home : Option String) (p : String), jsStartsWith p "file:///" = true →
      resolveFeishuMediaPath home p =
        (decodeURIComponentModel (stringDrop p 7)).map
          (fun s => if jsStartsWith s "~" then (home.getD "") ++ stringDrop s 1 else s)) ∧
    (∀ (home : Option String) (p : String), jsStartsWith p "file:///" = false →
      resolveFeishuMediaPath home p =
        .ok (if jsStartsWith p "~" then (home.getD "") ++ stringDrop p 1 else p)) ∧
    (∀ (home : Option String) (p : String),
      jsStartsWith p "file://" = true → jsStartsWith p "file:///" = false →
      resolveFeishuMediaPath home p =
        .ok (if jsStartsWith p "~" then (home.getD "") ++ stringDrop p 1 else p)) ∧
    (∀ p : String, jsStartsWith p "file:///" = false → jsStartsWith p "~" = true →
      resolveFeishuMediaPath none p = .ok ("" ++ stringDrop p 1)) ∧
    (∀ home : Option String,
      resolveFeishuMediaPath home "file:///Users/x/a b.png" = .ok "/Users/x/a b.png") := by
  refine ⟨?_, ?_, ?_, ?_, ?_⟩
  · intro home p h
    simp only [resolveFeishuMediaPath, h]
    cases hd : decodeURIComponentModel (stringDrop p 7) <;> simp [Except.map]
  · intro home p h
    simp only [resolveFeishuMediaPath, h]
    simp
  · intro home p _ h
    simp only [resolveFeishuMediaPath, h]
    simp
  · intro p h ht
    simp only [resolveFeishuMediaPath, h]
    simp [ht]
  · intro home
    rfl

/-- Witness for C7: a host-qualified `file://` URI (two slashes, no third)
is left untouched by the first transform. -/
theorem c7_witness :
    jsStartsWith "file://host/a" "file://" = true ∧
    jsStartsWith "file://host/a" "file:///" = false ∧
    resolveFeishuMediaPath (some "/home/u") "file://host/a" = .ok "file://host/a" :=
  ⟨by decide, by decide,
    (c7_resolve_two_transforms.2.2.1 (some "/home/u") "file://host/a"
      (by decide) (by decide)).trans (by rfl)⟩

/-- Claim C8 is violated by the code (evaluated at a failing input): with a
path source passing the size check and an SDK call that throws, both
functions return from the catch with the created read stream still open —
the trace records stream creation but no close/destroy by the function,
because the source contains none on any path. -/
theorem c8_stream_not_released_on_error_path :
    uploadImageToFeishu envRemoteThrows (.filePath "/tmp/a.png") .message =
      (⟨false, none, some "socket hang up"⟩, ⟨true, false, some ⟨.message⟩⟩) ∧
    uploadFileToFeishu envRemoteThrows (.filePath "/tmp/a.pdf") "a.pdf" .pdf none =
      (⟨false, none, some "socket hang up"⟩, ⟨true, false, some ⟨.pdf, "a.pdf", none⟩⟩) ∧
    (uploadImageToFeishu envRemoteThrows (.filePath "/tmp/a.png") .message).2.streamCreated = true ∧
    (uploadImageToFeishu envRemoteThrows (.filePath "/tmp/a.png") .message).2.streamClosedByFunction
      = false :=
  ⟨rfl, rfl, rfl, rfl⟩

/-- Claim C9: success requires the extracted key to be truthy, not merely
present: the key is the first non-nullish of the top-level field and the
nested data field, then tested for truthiness; hence a code-0 response with
an empty top-level key fails with "No image_key returned" (resp.
"No file_key returned") even when the `data` field holds a nonempty key. -/
theorem c9_truthiness_not_presence :
    (∀ (env : UploadEnv) (img : ByteSource) (t : FeishuImageType) (r : FeishuResponse)
      (d : FeishuData) (k : String),
      sizeOk env img → env.createStream = .ok () → env.imageCreate = .ok r →
      r.code = some 0 → r.image_key = some "" → r.data = some d → d.image_key = some k → k ≠ "" →
      uploadImageToFeishu env img t =
        (⟨false, none, some "No image_key returned"⟩, ⟨true, false, some ⟨t⟩⟩)) ∧
    (∀ (env : UploadEnv) (file : ByteSource) (fn : String) (ft : FeishuFileType) (dur : Option Nat)
      (r : FeishuResponse) (d : FeishuData) (k : String),
      sizeOk env file → env.createStream = .ok () → env.fileCreate = .ok r →
      r.code = some 0 → r.file_key = some "" → r.data = some d → d.file_key = some k → k ≠ "" →
      uploadFileToFeishu env file fn ft dur =
        (⟨false, none, some "No file_key returned"⟩, ⟨true, false, some ⟨ft, fn, dur⟩⟩)) ∧
    (∀ (env : UploadEnv) (img : ByteSource) (t : FeishuImageType) (r : FeishuResponse),
      sizeOk env img → env.createStream = .ok () → env.imageCreate = .ok r →
      (r.code = none ∨ r.code = some 0) →
      (uploadImageToFeishu env img t).1.success =
        jsTruthyStr (jsNullish r.image_key (r.data.bind FeishuData.image_key))) ∧
    (∀ (env : UploadEnv) (file : ByteSource) (fn : String) (ft : FeishuFileType) (dur : Option Nat)
      (r : FeishuResponse),
      sizeOk env file → env.createStream = .ok () → env.fileCreate = .ok r →
      (r.code = none ∨ r.code = some 0) →
      (uploadFileToFeishu env file fn ft dur).1.success =
        jsTruthyStr (jsNullish r.file_key (r.data.bind FeishuData.file_key))) := by
  refine ⟨?_, ?_, ?_, ?_⟩
  · intro env img t r d k hsz hs hc hcode hk hd hdk hne
    rw [uploadImage_sizeOk env img t hsz, imagePhase2_ok env t r hs hc]
    simp [imageRespResult, hcode, jsNullish, hk, jsTruthyStr]
  · intro env file fn ft dur r d k hsz hs hc hcode hk hd hdk hne
    rw [uploadFile_sizeOk env file fn ft dur hsz, filePhase2_ok env fn ft dur r hs hc]
    simp [fileRespResult, hcode, jsNullish, hk, jsTruthyStr]
  · intro env img t r hsz hs hc hcode
    rw [uploadImage_sizeOk env img t hsz, imagePhase2_ok env t r hs hc]
    rcases hcode with h0 | h0 <;>
      [skip; skip] <;>
      by_cases hk : jsTruthyStr (jsNullish r.image_key (r.data.bind FeishuData.image_key)) = true <;>
      simp_all [imageRespResult]
  · intro env file fn ft dur r hsz hs hc hcode
    rw [uploadFile_sizeOk env file fn ft dur hsz, filePhase2_ok env fn ft dur r hs hc]
    rcases hcode with h0 | h0 <;>
      [skip; skip] <;>
      by_cases hk : jsTruthyStr (jsNullish r.file_key (r.data.bind FeishuData.file_key)) = true <;>
      simp_all [fileRespResult]

/-- Witness for C9: the concrete response with `image_key: ""` and
`data.image_key: "real_image_key"` fails despite the nonempty nested key. -/
theorem c9_witness :
    sizeOk envEmptyTopKey (.buffer []) ∧
    respEmptyTopKey.image_key = some "" ∧
    respEmptyTopKey.data = some ⟨some "real_image_key", some "real_file_key"⟩ ∧
    uploadImageToFeishu envEmptyTopKey (.buffer []) .message =
      (⟨false, none, some "No image_key returned"⟩, ⟨true, false, some ⟨.message⟩⟩) :=
  ⟨Nat.zero_le _, rfl, rfl,
    c9_truthiness_not_presence.1 envEmptyTopKey (.buffer []) FeishuImageType.message
      respEmptyTopKey ⟨some "real_image_key", some "real_file_key"⟩ "real_image_key"
      (Nat.zero_le _) rfl rfl rfl rfl rfl rfl (by decide)⟩

theorem lastDotFrom_eq_none (i : Nat) (cs : List Char) (h : '.' ∉ cs) :
    lastDotFrom i cs = none := by
  induction cs generalizing i with
  | nil => rfl
  | cons c cs ih =>
    simp only [List.mem_cons, not_or] at h
    simp [lastDotFrom, ih (i + 1) h.2, Ne.symm h.1]

/-- Claim C10: the three extension-based classifiers read `path.extname`:
for any file name whose basename (the last nonempty path component) has no
dot after its first character — names with no dot at all, and dotfiles such
as ".opus" or ".png" — the extension is empty, so `detectFeishuFileType`
returns stream and `isFeishuImagePath` / `isFeishuAudioPath` return false. -/
theorem c10_dotfiles_have_no_extension (name : String)
    (h : '.' ∉ (basenameForExt name).drop 1) :
    extname name = "" ∧ detectFeishuFileType name = .stream ∧
    isFeishuImagePath name = false ∧ isFeishuAudioPath name = false := by
  have hext : extname name = "" := by
    unfold extname
    by_cases hdd : basenameForExt name = ['.', '.']
    · rw [if_pos hdd]
    · rw [if_neg hdd]
      cases hb : basenameForExt name with
      | nil => rfl
      | cons c cs =>
        rw [hb] at h
        simp only [List.drop_succ_cons, List.drop_zero] at h
        simp [lastDotFrom_eq_none 1 cs h]
  have hlow : extLower name = "" := by
    show toLowerModel (extname name) = ""
    rw [hext]
    rfl
  refine ⟨hext, ?_, ?_, ?_⟩
  · show feishuTypeOfExt (extLower name) = _
    rw [hlow]
    decide
  · show IMAGE_EXTENSIONS.contains (extLower name) = false
    rw [hlow]
    decide
  · show ([".opus", ".ogg", ".mp3", ".wav", ".m4a", ".aac", ".amr"] : List String).contains
      (extLower name) = false
    rw [hlow]
    decide

/-- Witness for C10: the dotfile ".opus" and the dotless name "opus" both
classify as stream / non-image / non-audio. -/
theorem c10_witness :
    ('.' ∉ (basenameForExt ".opus").drop 1) ∧
    (extname ".opus" = "" ∧ detectFeishuFileType ".opus" = .stream ∧
      isFeishuImagePath ".opus" = false ∧ isFeishuAudioPath ".opus" = false) ∧
    ('.' ∉ (basenameForExt "opus").drop 1) ∧
    (extname "opus" = "" ∧ detectFeishuFileType "opus" = .stream ∧
      isFeishuImagePath "opus" = false ∧ isFeishuAudioPath "opus" = false) :=
  ⟨by decide, c10_dotfiles_have_no_extension ".opus" (by decide),
   by decide, c10_dotfiles_have_no_extension "opus" (by decide)⟩
